import Mathlib

/-!
Verification of the VantagePoint supply-chain dashboard data pipeline.

Shallow embedding of the pure logic of `data.py`, `config.py`, `processing.py`
and the refresh action of `app.py`.  Network and AI interactions are modelled
by passing the outcome of the external call as an explicit argument; random
latitude/longitude draws are supplied by an explicit oracle argument.
Python strings are modelled as Lean `String`s, Python slicing as character
slicing (`pySlice`), truthiness of strings as emptiness tests (`pyOr`), and
Python `str.lower` as per-character lowering (`pyLower`).
-/

/-- Python `a or b` on strings: `b` when `a` is falsy (empty), else `a`. -/
def pyOr (a b : String) : String :=
  if a = "" then b else a

/-- Python `s.strip()`: drop whitespace from both ends. -/
def pyStrip (s : String) : String :=
  String.mk (((s.data.dropWhile Char.isWhitespace).reverse.dropWhile
    Char.isWhitespace).reverse)

/-- Python `s.lower()` (per-character lowering of the underlying chars). -/
def pyLower (s : String) : String :=
  String.mk (s.data.map Char.toLower)

/-- Python slice `s[a:b]` on characters. -/
def pySlice (s : String) (a b : Nat) : String :=
  String.mk ((s.data.take b).drop a)

/-- Python slice `s[:b]` on characters. -/
def pyTake (s : String) (b : Nat) : String :=
  String.mk (s.data.take b)

/-- Substring containment on char lists: some suffix of `t` starts with `kw`. -/
def charsIn (kw : List Char) : List Char → Bool
  | [] => kw.isEmpty
  | c :: rest => kw.isPrefixOf (c :: rest) || charsIn kw rest

/-- Python `kw in t`: substring containment on characters. -/
def kwIn (kw t : String) : Bool :=
  charsIn kw.data t.data

/-- Keyword group of the first branch of `_category_from_title` (construction materials). -/
def constructionKw (title : String) : Bool :=
  kwIn "cement" (pyLower title) || kwIn "steel" (pyLower title) ||
    kwIn "lumber" (pyLower title) || kwIn "infrastructure" (pyLower title)

/-- Keyword group of the second branch of `_category_from_title` (disruption/blockade). -/
def disruptionKw (title : String) : Bool :=
  kwIn "strike" (pyLower title) || kwIn "port" (pyLower title) ||
    kwIn "congestion" (pyLower title) || kwIn "canal" (pyLower title) ||
    kwIn "blockade" (pyLower title)

/-- Keyword group of the third branch of `_category_from_title`. -/
def shortageKw (title : String) : Bool :=
  kwIn "shortage" (pyLower title)

/-- Keyword group of the fourth branch of `_category_from_title` (factory/assembly). -/
def manufacturingKw (title : String) : Bool :=
  kwIn "factory" (pyLower title) || kwIn "fab" (pyLower title) ||
    kwIn "assembly" (pyLower title)

/-- Keyword group of the fifth branch of `_category_from_title` (trade/sanction). -/
def geopoliticalKw (title : String) : Bool :=
  kwIn "sanction" (pyLower title) || kwIn "trade" (pyLower title) ||
    kwIn "export" (pyLower title)

/-- `_category_from_title` from `data.py`: heuristic category from a headline,
checking the keyword groups in the source order, first match winning. -/
def _category_from_title (title : String) : String :=
  if constructionKw title then "Construction"
  else if disruptionKw title then "Disruption"
  else if shortageKw title then "Shortage"
  else if manufacturingKw title then "Manufacturing"
  else if geopoliticalKw title then "Geopolitical"
  else "General"

/-- Crisis tier of `_heuristic_risk_from_text` (first branch). -/
def crisisTier (t : String) : Bool :=
  ["strike", "shortage", "blockade", "outage", "closure", "crisis"].any
    (fun w => kwIn w t)

/-- Disruption tier of `_heuristic_risk_from_text` (second branch). -/
def disruptionTier (t : String) : Bool :=
  ["disruption", "delay", "backlog", "congestion"].any (fun w => kwIn w t)

/-- Generic supply-chain tier of `_heuristic_risk_from_text` (third branch). -/
def genericSupplyTier (t : String) : Bool :=
  ["supply chain", "logistics", "shipping", "freight", "port", "cargo"].any
    (fun w => kwIn w t)

/-- `_heuristic_risk_from_text` from `data.py`: tiered 1-5 risk from
title and description, lowercased and joined by a space. -/
def _heuristic_risk_from_text (title description : String) : Int :=
  let t := pyLower (title ++ " " ++ description)
  if crisisTier t then min 5 4
  else if disruptionTier t then 3
  else if genericSupplyTier t then 2
  else 1

/-- `NEWSAPI_RELEVANCE_KEYWORDS` from `config.py`. -/
def NEWSAPI_RELEVANCE_KEYWORDS : List String :=
  ["supply chain", "logistics", "shipping", "freight", "cargo", "port", "shortage",
   "disruption", "strike", "factory", "manufacturing", "inventory", "shipment",
   "supplier", "procurement", "warehouse", "distribution", "export",
   "import", "container", "rail", "trucking", "delivery", "outage", "closure", "backlog"]

/-- `NEWSAPI_MIN_RELEVANCE` from `config.py`. -/
def NEWSAPI_MIN_RELEVANCE : Nat := 1

/-- `MAX_RSS_ENTRIES_PER_FEED` from `config.py`. -/
def MAX_RSS_ENTRIES_PER_FEED : Nat := 15

/-- `_supply_chain_relevance` from `data.py`: how many of the relevance
keywords occur (case-insensitively, as substrings) in the text. -/
def _supply_chain_relevance (text : String) : Nat :=
  if text = "" then 0
  else NEWSAPI_RELEVANCE_KEYWORDS.countP
    (fun kw => kwIn (pyLower kw) (pyLower text))

/-- One field of a parsed Gemini single-event analysis payload.  Only the
fields that `analyze_with_gemini` reads back are modelled; `Option` captures
presence or absence of the key in the parsed JSON (`dict.get` defaults). -/
structure GeminiAnalysis where
  risk_score : Option Int
  category : Option String
  reasoning : Option String
deriving DecidableEq

/-- The `gemini_analysis` field of an event: either the error-marker dict
built in the exception handlers of `analyze_with_gemini`, or the full parsed
analysis payload. -/
inductive GeminiOutcome where
  | errorMarker (error : String) (reasoning : String)
  | payload (analysis : GeminiAnalysis)
deriving DecidableEq

/-- The canonical event record built by `_event_row` in `data.py`.
Float latitude/longitude are modelled as rationals (no claim under
verification depends on float rounding). -/
structure Event where
  timestamp : String
  headline : String
  location : String
  latitude : Rat
  longitude : Rat
  risk_score : Int
  category : String
  commodity : String
  reasoning : String
  article_snippet : String
  source_url : String
  source : String
  gemini_analysis : Option GeminiOutcome
deriving DecidableEq

/-- `_event_row` from `data.py`: build one event row in the standard schema.
The random `random.uniform` draws are passed in as `lat`/`lon`; the
`risk_score` parameter defaults to 0 at every call site that omits it. -/
def _event_row (headline snippet source source_url timestamp : String)
    (lat lon : Rat) (risk_score : Int) : Event :=
  { timestamp := timestamp
    headline := pyTake (pyStrip (pyOr headline "Unknown Event")) 500
    location := "Global Signal (Live)"
    latitude := lat
    longitude := lon
    risk_score := risk_score
    category := _category_from_title headline
    commodity := "Mixed"
    reasoning := ""
    article_snippet := pyTake (pyOr snippet (pyOr headline "")) 200
    source_url := pyOr source_url "#"
    source := pyOr source "Live"
    gemini_analysis := none }

/-- Outcome of the Gemini call plus JSON decode in `analyze_with_gemini`:
a `json.JSONDecodeError`, any other exception, or a parsed payload. -/
inductive GeminiServiceResult where
  | parseFailure (msg : String)
  | transportFailure (msg : String)
  | parsed (analysis : GeminiAnalysis)
deriving DecidableEq

/-- `analyze_with_gemini` from `data.py`, with the outcome of the network
call and JSON parse supplied as `result`.  On success the risk score is
clamped by `min 10 (max 1 _)` and category/reasoning are merged onto the
event; on either exception an error-marker dict is attached instead. -/
def analyze_with_gemini (event : Event) (api_key : String)
    (result : GeminiServiceResult) : Event :=
  if pyStrip api_key = "" then event
  else
    match result with
    | .parsed analysis =>
        { event with
          risk_score := min 10 (max 1 (analysis.risk_score.getD 5))
          category := analysis.category.getD event.category
          gemini_analysis := some (.payload analysis)
          reasoning := analysis.reasoning.getD "" }
    | .parseFailure msg =>
        { event with
          gemini_analysis := some (.errorMarker ("JSON parse failed: " ++ msg) "") }
    | .transportFailure msg =>
        { event with gemini_analysis := some (.errorMarker msg "") }

/-- `get_live_events` from `data.py`, with each fetcher result supplied as an
argument: try GDELT, then NewsAPI (only when the environment key is set),
then RSS, returning the first non-empty result and an empty list otherwise. -/
def get_live_events (gdeltResult newsapiResult rssResult : List Event)
    (newsapiKey : String) : List Event :=
  if !gdeltResult.isEmpty then gdeltResult
  else if pyStrip newsapiKey != "" && !newsapiResult.isEmpty then newsapiResult
  else if !rssResult.isEmpty then rssResult
  else []

/-- A raw GDELT article; `Option` models presence of the JSON keys
(`art.get` with defaults, falsy empty strings handled by `pyOr`). -/
structure GdeltArticle where
  title : Option String
  snippet : Option String
  domain : Option String
  url : Option String
  seendate : Option String
deriving DecidableEq

/-- Timestamp construction in `fetch_gdelt_events`: first 8 characters of the
compact `seendate`, a space, then characters 8-12 as `HH:MM`, defaulting to
`00:00` when the string is shorter than 12 characters. -/
def gdeltTimestamp (seendate : String) : String :=
  pySlice seendate 0 8 ++ " " ++
    (if 12 ≤ seendate.data.length then
      pySlice seendate 8 10 ++ ":" ++ pySlice seendate 10 12
    else "00:00")

/-- One row of the GDELT article loop; `nowCompact` is
`datetime.now().strftime("%Y%m%d")`, `rnd` the random lat/lon draw. -/
def gdeltRow (nowCompact : String) (rnd : Rat × Rat) (art : GdeltArticle) : Event :=
  let title := pyStrip (pyOr (art.title.getD "") "Unknown Event")
  let snippet := pyTake (pyOr (art.snippet.getD "") title) 200
  let seendate := art.seendate.getD nowCompact
  _event_row title snippet (art.domain.getD "GDELT") (art.url.getD "#")
    (gdeltTimestamp seendate) rnd.1 rnd.2 0

/-- The GDELT article loop, carrying the index into the random oracle. -/
def gdeltRows (nowCompact : String) (rnd : Nat → Rat × Rat) (i : Nat) :
    List GdeltArticle → List Event
  | [] => []
  | art :: rest => gdeltRow nowCompact (rnd i) art :: gdeltRows nowCompact rnd (i + 1) rest

/-- Outcome of the GDELT HTTP request: status 429, an `HTTPError` raised by
`raise_for_status` (with the status of its attached response, when any), any
other exception, or a decoded article list. -/
inductive GdeltOutcome where
  | rateLimited
  | httpError (status : Option Nat) (msg : String)
  | unreachable (msg : String)
  | success (articles : List GdeltArticle)
deriving DecidableEq

/-- `fetch_gdelt_events` from `data.py`.  Returns the event rows together
with the list of sidebar warnings the call emits. -/
def fetch_gdelt_events (outcome : GdeltOutcome) (nowCompact : String)
    (rnd : Nat → Rat × Rat) : List Event × List String :=
  match outcome with
  | .rateLimited =>
      ([], ["GDELT rate limit (429 Too Many Requests). Use **Mock** data for now, or try again in 10–15 minutes."])
  | .httpError status msg =>
      ([], [if status = some 429 then "GDELT rate limit (429). Use **Mock** data or try again later."
            else "GDELT error: " ++ msg])
  | .unreachable msg => ([], ["GDELT unreachable: " ++ msg])
  | .success articles =>
      if articles.isEmpty then ([], [])
      else (gdeltRows nowCompact rnd 0 articles, [])

/-- A raw NewsAPI article; absent keys and falsy values are both modelled as
the empty string (Python `or` treats them alike here). -/
structure NewsArticle where
  title : String
  description : String
  sourceName : String
  url : String
  publishedAt : String
deriving DecidableEq

/-- Does `T` followed by two digits, a colon and two digits start here?
(The lookahead of the `re.sub` pattern in `fetch_newsapi_events`.) -/
def tMatchHere : List Char → Option (Char × Char × Char × Char)
  | h1 :: h2 :: c :: m1 :: m2 :: _ =>
      if h1.isDigit && h2.isDigit && (c == ':') && m1.isDigit && m2.isDigit then
        some (h1, h2, m1, m2)
      else none
  | _ => none

/-- The substitution of the first match of the pattern
`T(dd):(dd).*` by a space, the hour group, a colon and the minute group
(everything after the match is consumed by the trailing wildcard). -/
def pySubT : List Char → List Char
  | [] => []
  | c :: rest =>
      if c == 'T' then
        match tMatchHere rest with
        | some (h1, h2, m1, m2) => [' ', h1, h2, ':', m1, m2]
        | none => c :: pySubT rest
      else c :: pySubT rest

/-- Publish-timestamp normalization of `fetch_newsapi_events`: empty
timestamps fall back to the formatted current time, otherwise the first 16
characters with the ISO `T` separator rewritten to a space when present. -/
def newsapiPub (pub nowStr : String) : String :=
  if pub = "" then nowStr
  else if kwIn "T" pub then String.mk (pySubT (pyTake pub 16).data)
  else pyTake pub 16

/-- Retention test of the NewsAPI article loop: a title must be present and
the supply-chain relevance of title-space-description must reach
`NEWSAPI_MIN_RELEVANCE`. -/
def newsapiKeep (art : NewsArticle) : Bool :=
  art.title != "" &&
    !(_supply_chain_relevance (art.title ++ " " ++ pyOr art.description art.title)
        < NEWSAPI_MIN_RELEVANCE)

/-- One retained row of the NewsAPI article loop. -/
def newsapiRow (nowStr : String) (rnd : Rat × Rat) (art : NewsArticle) : Event :=
  let title := art.title
  let desc := pyOr art.description title
  _event_row title desc (pyOr art.sourceName "NewsAPI") (pyOr art.url "#")
    (newsapiPub art.publishedAt nowStr) rnd.1 rnd.2
    (_heuristic_risk_from_text title desc)

/-- The NewsAPI article loop; the oracle index advances per emitted row,
mirroring one random draw per appended row. -/
def newsapiRows (nowStr : String) (rnd : Nat → Rat × Rat) (i : Nat) :
    List NewsArticle → List Event
  | [] => []
  | art :: rest =>
      if newsapiKeep art then
        newsapiRow nowStr (rnd i) art :: newsapiRows nowStr rnd (i + 1) rest
      else newsapiRows nowStr rnd i rest

/-- Outcome of the NewsAPI HTTP request. -/
inductive NewsOutcome where
  | rateLimited
  | failure (msg : String)
  | success (articles : List NewsArticle)
deriving DecidableEq

/-- `fetch_newsapi_events` from `data.py`.  Returns the event rows together
with the sidebar warnings the call emits — this fetcher emits none: a
missing key, a 429 status or any exception all return an empty frame
silently. -/
def fetch_newsapi_events (api_key : String) (outcome : NewsOutcome)
    (nowStr : String) (rnd : Nat → Rat × Rat) : List Event × List String :=
  if pyStrip api_key = "" then ([], [])
  else
    match outcome with
    | .rateLimited => ([], [])
    | .failure _ => ([], [])
    | .success articles => (newsapiRows nowStr rnd 0 articles, [])

/-- A `feedparser` `struct_time` restricted to the fields the code reads. -/
structure RssTime where
  tm_year : Nat
  tm_mon : Nat
  tm_mday : Nat
  tm_hour : Nat
  tm_min : Nat
deriving DecidableEq

/-- A raw RSS entry.  Structured summaries are modelled as plain strings
(the string branch of the source's `hasattr` test). -/
structure RssEntry where
  title : Option String
  summary : Option String
  description : Option String
  link : Option String
  published : Option String
  updated : Option String
  published_parsed : Option RssTime
deriving DecidableEq

/-- A parsed RSS feed: the feed-level title and the entry list. -/
structure RssFeed where
  feedTitle : Option String
  entries : List RssEntry
deriving DecidableEq

/-- Zero-padded two-digit formatting (Python `:02d` for values below 100). -/
def pad2 (n : Nat) : String :=
  if n < 10 then "0" ++ toString n else toString n

/-- The f-string formatting of a parsed RSS publish time. -/
def rssFormatTime (t : RssTime) : String :=
  toString t.tm_year ++ "-" ++ pad2 t.tm_mon ++ "-" ++ pad2 t.tm_mday ++ " " ++
    pad2 t.tm_hour ++ ":" ++ pad2 t.tm_min

/-- Publish-time extraction of the RSS entry loop: prefer the structured
`published_parsed` field when a raw timestamp is present, otherwise keep the
raw `published`/`updated` string (possibly empty). -/
def rssPublished (e : RssEntry) : String :=
  let published := pyOr (e.published.getD "") (e.updated.getD "")
  if published = "" then published
  else
    match e.published_parsed with
    | some t => rssFormatTime t
    | none => published

/-- One row of the RSS entry loop. -/
def rssRow (sourceTitle : String) (rnd : Rat × Rat) (e : RssEntry) : Event :=
  let title := e.title.getD ""
  let raw := pyOr (pyOr (e.summary.getD "") (e.description.getD "")) title
  _event_row title (pyTake raw 200) sourceTitle (pyOr (e.link.getD "") "#")
    (rssPublished e) rnd.1 rnd.2 0

/-- The RSS entry loop over the (already capped) entries of one feed,
skipping entries without a title. -/
def rssEntryRows (sourceTitle : String) (rndi : Nat → Rat × Rat) (i : Nat) :
    List RssEntry → List Event
  | [] => []
  | e :: rest =>
      if e.title.getD "" = "" then rssEntryRows sourceTitle rndi i rest
      else rssRow sourceTitle (rndi i) e :: rssEntryRows sourceTitle rndi (i + 1) rest

/-- One feed of the RSS feed loop: a parse failure contributes nothing
(`except Exception: continue`); a parsed feed contributes its first
`MAX_RSS_ENTRIES_PER_FEED` entries. -/
def rssOneFeedRows (rndi : Nat → Rat × Rat) (feedUrl : String)
    (out : Except String RssFeed) : List Event :=
  match out with
  | .error _ => []
  | .ok feed =>
      rssEntryRows (pyOr (feed.feedTitle.getD "") feedUrl) rndi 0
        (feed.entries.take MAX_RSS_ENTRIES_PER_FEED)

/-- The RSS feed loop over the configured feed URLs paired with each parse
outcome, carrying the feed index into the random oracle. -/
def rssFeedsRows (rnd : Nat → Nat → Rat × Rat) (i : Nat) :
    List (String × Except String RssFeed) → List Event
  | [] => []
  | f :: rest => rssOneFeedRows (rnd i) f.1 f.2 ++ rssFeedsRows rnd (i + 1) rest

/-- `fetch_rss_events` from `data.py`.  Returns the event rows together with
the sidebar warnings the call emits — this fetcher emits none. -/
def fetch_rss_events (feeds : List (String × Except String RssFeed))
    (rnd : Nat → Nat → Rat × Rat) : List Event × List String :=
  (rssFeedsRows rnd 0 feeds, [])

/-- `calculate_health_index` from `processing.py`: 100 for an empty frame,
otherwise 100 minus 5 per event of risk at least 7 minus 3 per Disruption
event, clamped below by 0 and above by 100. -/
def calculate_health_index (events_df : List Event) : Int :=
  if events_df.isEmpty then 100
  else
    let high_risk : Nat := events_df.countP (fun e => decide (7 ≤ e.risk_score))
    let disruptions : Nat := events_df.countP (fun e => decide (e.category = "Disruption"))
    let health : Int := max 0 (100 - (high_risk * 5 : Nat) - (disruptions * 3 : Nat))
    min 100 health

/-- Modelled from the spec: one entry of the result cache that the
`st.cache_data(ttl=600)` decorator (whose implementation is outside this
repository) keeps for a wrapped fetcher — the call arguments, the cached
snapshot, and the creation time in seconds. -/
structure CacheEntry (α β : Type) where
  args : α
  value : β
  createdAt : Nat
deriving DecidableEq

/-- Modelled from the spec: the process-wide store of cache entries for one
wrapped fetcher. -/
structure CacheState (α β : Type) where
  entries : List (CacheEntry α β)
deriving DecidableEq

/-- Result of one call through the cache: the returned value, the store
afterwards, and whether the underlying (network) fetch was executed. -/
structure CallResult (α β : Type) where
  value : β
  state : CacheState α β
  networkCall : Bool
deriving DecidableEq

/-- An entry serves a call: same arguments, and younger than the TTL
measured from creation. -/
def validEntry {α β : Type} [DecidableEq α] (ttl now : Nat) (a : α)
    (e : CacheEntry α β) : Bool :=
  decide (e.args = a) && decide (now < e.createdAt + ttl)

/-- Modelled from the spec: one call to a fetcher wrapped by
`st.cache_data` — memoize by call arguments, entry valid for `ttl` seconds
from creation; on expiry or miss, re-execute and replace the entry. -/
def cachedCall {α β : Type} [DecidableEq α] (f : α → β) (ttl now : Nat)
    (s : CacheState α β) (a : α) : CallResult α β :=
  match s.entries.find? (validEntry ttl now a) with
  | some e => ⟨e.value, s, false⟩
  | none =>
      ⟨f a, ⟨⟨a, f a, now⟩ :: s.entries.filter (fun e => decide (e.args ≠ a))⟩, true⟩

/-- Modelled from the spec: `fetcher.clear()` — evict every entry of the
wrapped fetcher immediately, regardless of age. -/
def clearCache {α β : Type} (_ : CacheState α β) : CacheState α β := ⟨[]⟩

/-- The refresh action of `main` in `app.py`: clear the caches of both
wrapped fetchers (`fetch_gdelt_events.clear(); fetch_newsapi_events.clear()`). -/
def refreshAction {α β γ δ : Type} (gdeltCache : CacheState α β)
    (newsapiCache : CacheState γ δ) : CacheState α β × CacheState γ δ :=
  (clearCache gdeltCache, clearCache newsapiCache)

/-- Modelled from the spec: the canonical timestamp format
`YYYY-MM-DD HH:MM` of the event-record data model (four digits, hyphen, two
digits, hyphen, two digits, space, two digits, colon, two digits). -/
def isCanonicalTimestamp (s : String) : Bool :=
  match s.data with
  | [y1, y2, y3, y4, a, mo1, mo2, b, d1, d2, c, h1, h2, d, mi1, mi2] =>
      y1.isDigit && y2.isDigit && y3.isDigit && y4.isDigit && (a == '-') &&
        mo1.isDigit && mo2.isDigit && (b == '-') && d1.isDigit && d2.isDigit &&
        (c == ' ') && h1.isDigit && h2.isDigit && (d == ':') && mi1.isDigit &&
        mi2.isDigit
  | _ => false

/-- The compact timestamp shape `YYYYMMDD HH:MM` that the GDELT fetcher
actually produces from a well-formed compact seendate: eight digits, a
space, two digits, a colon, two digits — no hyphens in the date part. -/
def isCompactTimestamp (s : String) : Bool :=
  match s.data with
  | [y1, y2, y3, y4, mo1, mo2, d1, d2, c, h1, h2, d, mi1, mi2] =>
      y1.isDigit && y2.isDigit && y3.isDigit && y4.isDigit && mo1.isDigit &&
        mo2.isDigit && d1.isDigit && d2.isDigit && (c == ' ') && h1.isDigit &&
        h2.isDigit && (d == ':') && mi1.isDigit && mi2.isDigit
  | _ => false


/-- A concrete event used by the witnesses below. -/
def sampleEvent : Event :=
  _event_row "Steel shipment surge" "a snippet" "wire" "https" "2024-03-15 12:00" 1 2 3

/-- A concrete GDELT article used by the witnesses below. -/
def sampleGdeltArticle : GdeltArticle :=
  ⟨some "Steel strike", some "Steel strike looms", some "example.com",
    some "https", some "20240315123456"⟩

/-- A concrete NewsAPI article used by the witnesses below. -/
def sampleNewsArticle : NewsArticle :=
  ⟨"Port strike hits freight", "", "", "", ""⟩

/-- Claim C1: the live-acquisition orchestrator is a strict priority
fallback — it returns the primary result when non-empty, else the secondary
result when the key is configured and that result is non-empty, else the
tertiary result when non-empty, else an empty result; the returned
collection always equals exactly one source's output, never a mix. -/
theorem get_live_events_strict_priority (g n r : List Event) (k : String) :
    (g ≠ [] → get_live_events g n r k = g)
  ∧ (g = [] → pyStrip k ≠ "" → n ≠ [] → get_live_events g n r k = n)
  ∧ (g = [] → (pyStrip k = "" ∨ n = []) → r ≠ [] → get_live_events g n r k = r)
  ∧ (g = [] → (pyStrip k = "" ∨ n = []) → r = [] → get_live_events g n r k = [])
  ∧ (get_live_events g n r k = g ∨ get_live_events g n r k = n ∨
      get_live_events g n r k = r ∨ get_live_events g n r k = []) := by
  by_cases hk : pyStrip k = "" <;>
    rcases g with _ | ⟨a, g⟩ <;> rcases n with _ | ⟨b, n⟩ <;>
    rcases r with _ | ⟨c, r⟩ <;> simp [get_live_events, hk]

/-- Witness for C1: primary empty, key configured, secondary non-empty —
the result is exactly the secondary output. -/
theorem get_live_events_strict_priority_witness :
    ([] : List Event) = [] ∧ pyStrip "key" ≠ "" ∧
      get_live_events [] [_event_row "A port strike" "" "s" "u" "t" 0 0 2] []
        "key" = [_event_row "A port strike" "" "s" "u" "t" 0 0 2] :=
  ⟨rfl, by decide,
    (get_live_events_strict_priority []
      [_event_row "A port strike" "" "s" "u" "t" 0 0 2] [] "key").2.1 rfl
      (by decide) (by decide)⟩

/-- Claim C3: the category heuristic checks its keyword groups in the fixed
source order with first match winning; a title matching both a
construction-material keyword and a disruption keyword resolves to
Construction. -/
theorem category_priority_invariant (title : String) :
    (constructionKw title = true → disruptionKw title = true →
      _category_from_title title = "Construction")
  ∧ (constructionKw title = true → _category_from_title title = "Construction")
  ∧ (constructionKw title = false → disruptionKw title = true →
      _category_from_title title = "Disruption")
  ∧ (constructionKw title = false → disruptionKw title = false →
      shortageKw title = true → _category_from_title title = "Shortage")
  ∧ (constructionKw title = false → disruptionKw title = false →
      shortageKw title = false → manufacturingKw title = true →
      _category_from_title title = "Manufacturing")
  ∧ (constructionKw title = false → disruptionKw title = false →
      shortageKw title = false → manufacturingKw title = false →
      geopoliticalKw title = true → _category_from_title title = "Geopolitical")
  ∧ (constructionKw title = false → disruptionKw title = false →
      shortageKw title = false → manufacturingKw title = false →
      geopoliticalKw title = false → _category_from_title title = "General") := by
  unfold _category_from_title
  refine ⟨?_, ?_, ?_, ?_, ?_, ?_, ?_⟩ <;> intros <;> simp_all

/-- Witness for C3: a title containing both "steel" and "strike" is
categorized as Construction. -/
theorem category_priority_invariant_witness :
    constructionKw "Steel strike at the port" = true ∧
      disruptionKw "Steel strike at the port" = true ∧
      _category_from_title "Steel strike at the port" = "Construction" :=
  ⟨by decide, by decide,
    (category_priority_invariant "Steel strike at the port").1 (by decide) (by decide)⟩

/-- Claim C4: the heuristic risk score is always in 1..5, determined by
tiers checked in order with first match winning: a crisis-tier term scores 4
regardless of lower tiers, else a disruption-tier term scores 3, else a
generic supply-chain term scores 2, else 1. -/
theorem heuristic_risk_tiers_spec (title description : String) :
    (1 ≤ _heuristic_risk_from_text title description ∧
      _heuristic_risk_from_text title description ≤ 5)
  ∧ (crisisTier (pyLower (title ++ " " ++ description)) = true →
      _heuristic_risk_from_text title description = 4)
  ∧ (crisisTier (pyLower (title ++ " " ++ description)) = false →
      disruptionTier (pyLower (title ++ " " ++ description)) = true →
      _heuristic_risk_from_text title description = 3)
  ∧ (crisisTier (pyLower (title ++ " " ++ description)) = false →
      disruptionTier (pyLower (title ++ " " ++ description)) = false →
      genericSupplyTier (pyLower (title ++ " " ++ description)) = true →
      _heuristic_risk_from_text title description = 2)
  ∧ (crisisTier (pyLower (title ++ " " ++ description)) = false →
      disruptionTier (pyLower (title ++ " " ++ description)) = false →
      genericSupplyTier (pyLower (title ++ " " ++ description)) = false →
      _heuristic_risk_from_text title description = 1) := by
  unfold _heuristic_risk_from_text
  dsimp only
  refine ⟨?_, ?_, ?_, ?_, ?_⟩ <;> intros <;> split_ifs <;> simp_all

/-- Witness for C4: a text matching both the crisis tier ("strike") and
lower tiers ("port", "congestion") scores 4. -/
theorem heuristic_risk_tiers_spec_witness :
    crisisTier (pyLower ("Port strike" ++ " " ++ "congestion ahead")) = true ∧
      _heuristic_risk_from_text "Port strike" "congestion ahead" = 4 :=
  ⟨by decide,
    (heuristic_risk_tiers_spec "Port strike" "congestion ahead").2.1 (by decide)⟩

/-- Claim C10: the health index is always an integer in 0..100, is exactly
100 on an empty frame, and equals 100 minus 5 per event of risk at least 7
minus 3 per Disruption event, clamped below at 0. -/
theorem health_index_spec (events_df : List Event) :
    0 ≤ calculate_health_index events_df
  ∧ calculate_health_index events_df ≤ 100
  ∧ (events_df = [] → calculate_health_index events_df = 100)
  ∧ calculate_health_index events_df =
      max 0 (100 - 5 * ((events_df.countP (fun e => decide (7 ≤ e.risk_score)) : Int))
               - 3 * ((events_df.countP (fun e => decide (e.category = "Disruption")) : Int))) := by
  unfold calculate_health_index
  rcases events_df with _ | ⟨e, es⟩
  · simp
  · simp only [List.isEmpty_cons, Bool.false_eq_true, if_false]
    refine ⟨?_, ?_, fun h => absurd h (by simp), ?_⟩ <;>
      dsimp only <;> push_cast <;>
      simp only [min_def, max_def] <;> split_ifs <;> omega

/-- Witness for C10: the empty frame scores exactly 100. -/
theorem health_index_spec_witness : calculate_health_index [] = 100 :=
  (health_index_spec []).2.2.1 rfl

/-- The heuristic risk value is always between 1 and 5. -/
theorem heuristic_risk_bounds (t d : String) :
    1 ≤ _heuristic_risk_from_text t d ∧ _heuristic_risk_from_text t d ≤ 5 := by
  unfold _heuristic_risk_from_text
  dsimp only
  split_ifs <;> simp

/-- Every event produced by the GDELT article loop carries risk score 0. -/
theorem gdeltRows_risk_eq_zero (nowC : String) (rnd : Nat → Rat × Rat) :
    ∀ (arts : List GdeltArticle) (i : Nat), ∀ ev ∈ gdeltRows nowC rnd i arts,
      ev.risk_score = 0 := by
  intro arts
  induction arts with
  | nil => intro i ev h; cases h
  | cons a rest ih =>
      intro i ev h
      rcases List.mem_cons.mp h with h1 | h2
      · subst h1; rfl
      · exact ih (i + 1) ev h2

/-- Every event produced by the NewsAPI article loop carries the heuristic
risk of its article, hence a value between 1 and 5. -/
theorem newsapiRows_risk_bounds (nowS : String) (rnd : Nat → Rat × Rat) :
    ∀ (arts : List NewsArticle) (i : Nat), ∀ ev ∈ newsapiRows nowS rnd i arts,
      1 ≤ ev.risk_score ∧ ev.risk_score ≤ 5 := by
  intro arts
  induction arts with
  | nil => intro i ev h; cases h
  | cons a rest ih =>
      intro i ev h
      unfold newsapiRows at h
      split_ifs at h
      · rcases List.mem_cons.mp h with h1 | h2
        · subst h1
          exact heuristic_risk_bounds a.title (pyOr a.description a.title)
        · exact ih (i + 1) ev h2
      · exact ih i ev h

/-- Every event produced by the RSS entry loop carries risk score 0. -/
theorem rssEntryRows_risk_eq_zero (src : String) (rndi : Nat → Rat × Rat) :
    ∀ (es : List RssEntry) (i : Nat), ∀ ev ∈ rssEntryRows src rndi i es,
      ev.risk_score = 0 := by
  intro es
  induction es with
  | nil => intro i ev h; cases h
  | cons e rest ih =>
      intro i ev h
      unfold rssEntryRows at h
      split_ifs at h
      · exact ih i ev h
      · rcases List.mem_cons.mp h with h1 | h2
        · subst h1; rfl
        · exact ih (i + 1) ev h2

/-- Every event produced by the RSS feed loop carries risk score 0. -/
theorem rssFeedsRows_risk_eq_zero (rnd : Nat → Nat → Rat × Rat) :
    ∀ (feeds : List (String × Except String RssFeed)) (i : Nat),
      ∀ ev ∈ rssFeedsRows rnd i feeds, ev.risk_score = 0 := by
  intro feeds
  induction feeds with
  | nil => intro i ev h; cases h
  | cons f rest ih =>
      intro i ev h
      rcases List.mem_append.mp h with h1 | h2
      · rcases f with ⟨url, out⟩
        rcases out with msg | feed
        · cases h1
        · exact rssEntryRows_risk_eq_zero _ _ _ _ ev h1
      · exact ih (i + 1) ev h2

/-- The orchestrator result is one of the three source results or empty. -/
theorem get_live_events_cases (g n r : List Event) (k : String) :
    get_live_events g n r k = g ∨ get_live_events g n r k = n ∨
      get_live_events g n r k = r ∨ get_live_events g n r k = [] := by
  unfold get_live_events
  split_ifs <;> simp

/-- Claim C7: when single-event AI analysis receives malformed JSON, the
returned event's `gemini_analysis` is the error marker and the original
risk score and category are unchanged. -/
theorem gemini_parse_failure_preserves (e : Event) (k msg : String)
    (h : pyStrip k ≠ "") :
    (analyze_with_gemini e k (.parseFailure msg)).gemini_analysis
        = some (.errorMarker ("JSON parse failed: " ++ msg) "")
  ∧ (analyze_with_gemini e k (.parseFailure msg)).risk_score = e.risk_score
  ∧ (analyze_with_gemini e k (.parseFailure msg)).category = e.category := by
  unfold analyze_with_gemini
  rw [if_neg h]
  exact ⟨rfl, rfl, rfl⟩

/-- Witness for C7: a concrete truncated-JSON failure on a concrete event. -/
theorem gemini_parse_failure_preserves_witness :
    pyStrip "key" ≠ ""
  ∧ (analyze_with_gemini sampleEvent "key" (.parseFailure "Expecting value")).gemini_analysis
      = some (.errorMarker ("JSON parse failed: " ++ "Expecting value") "")
  ∧ (analyze_with_gemini sampleEvent "key" (.parseFailure "Expecting value")).risk_score
      = sampleEvent.risk_score
  ∧ (analyze_with_gemini sampleEvent "key" (.parseFailure "Expecting value")).category
      = sampleEvent.category :=
  ⟨by decide,
    (gemini_parse_failure_preserves sampleEvent "key" "Expecting value" (by decide)).1,
    (gemini_parse_failure_preserves sampleEvent "key" "Expecting value" (by decide)).2.1,
    (gemini_parse_failure_preserves sampleEvent "key" "Expecting value" (by decide)).2.2⟩

/-- Claim C5: risk scores of normalized events are in 0..10 (GDELT and RSS
rows carry the default 0, NewsAPI rows the heuristic 1..5), and after a
successful AI enrichment the risk score is clamped into 1..10, whatever
integer the service returned. -/
theorem risk_score_range_invariant (outcome : GdeltOutcome) (nout : NewsOutcome)
    (feeds : List (String × Except String RssFeed)) (k nowC nowS : String)
    (rnd1 rnd2 : Nat → Rat × Rat) (rnd3 : Nat → Nat → Rat × Rat)
    (e : Event) (a : GeminiAnalysis) :
    (∀ ev ∈ (fetch_gdelt_events outcome nowC rnd1).1, ev.risk_score = 0)
  ∧ (∀ ev ∈ (fetch_newsapi_events k nout nowS rnd2).1,
      1 ≤ ev.risk_score ∧ ev.risk_score ≤ 5)
  ∧ (∀ ev ∈ (fetch_rss_events feeds rnd3).1, ev.risk_score = 0)
  ∧ (∀ ev ∈ get_live_events (fetch_gdelt_events outcome nowC rnd1).1
        (fetch_newsapi_events k nout nowS rnd2).1 (fetch_rss_events feeds rnd3).1 k,
      0 ≤ ev.risk_score ∧ ev.risk_score ≤ 10)
  ∧ (pyStrip k ≠ "" →
      1 ≤ (analyze_with_gemini e k (.parsed a)).risk_score ∧
        (analyze_with_gemini e k (.parsed a)).risk_score ≤ 10) := by
  have hg : ∀ ev ∈ (fetch_gdelt_events outcome nowC rnd1).1, ev.risk_score = 0 := by
    intro ev h
    rcases outcome with _ | ⟨st, msg⟩ | msg | arts
    · cases h
    · cases h
    · cases h
    · unfold fetch_gdelt_events at h
      dsimp only at h
      split_ifs at h
      · cases h
      · exact gdeltRows_risk_eq_zero nowC rnd1 arts 0 ev h
  have hn : ∀ ev ∈ (fetch_newsapi_events k nout nowS rnd2).1,
      1 ≤ ev.risk_score ∧ ev.risk_score ≤ 5 := by
    intro ev h
    unfold fetch_newsapi_events at h
    split_ifs at h
    · cases h
    · rcases nout with _ | msg | arts <;> dsimp only at h
      · cases h
      · cases h
      · exact newsapiRows_risk_bounds nowS rnd2 arts 0 ev h
  have hr : ∀ ev ∈ (fetch_rss_events feeds rnd3).1, ev.risk_score = 0 :=
    fun ev h => rssFeedsRows_risk_eq_zero rnd3 feeds 0 ev h
  refine ⟨hg, hn, hr, ?_, ?_⟩
  · intro ev h
    rcases get_live_events_cases (fetch_gdelt_events outcome nowC rnd1).1
        (fetch_newsapi_events k nout nowS rnd2).1 (fetch_rss_events feeds rnd3).1 k
      with hc | hc | hc | hc <;> rw [hc] at h
    · have := hg ev h; omega
    · have := hn ev h; omega
    · have := hr ev h; omega
    · cases h
  · intro hk
    unfold analyze_with_gemini
    rw [if_neg hk]
    dsimp only
    constructor
    · exact le_min (by norm_num) (le_max_left 1 _)
    · exact min_le_left 10 _

/-- Witness for C5: a concrete GDELT row has risk 0, and an AI payload
with out-of-range risk 99 is clamped to at most 10. -/
theorem risk_score_range_invariant_witness :
    (gdeltRow "20240101" ((0 : Rat), (0 : Rat)) sampleGdeltArticle)
      ∈ (fetch_gdelt_events (.success [sampleGdeltArticle]) "20240101"
          (fun _ => ((0 : Rat), (0 : Rat)))).1
  ∧ (gdeltRow "20240101" ((0 : Rat), (0 : Rat)) sampleGdeltArticle).risk_score = 0
  ∧ pyStrip "key" ≠ ""
  ∧ 1 ≤ (analyze_with_gemini sampleEvent "key"
        (.parsed ⟨some 99, none, none⟩)).risk_score
  ∧ (analyze_with_gemini sampleEvent "key"
        (.parsed ⟨some 99, none, none⟩)).risk_score ≤ 10 :=
  ⟨by decide,
    (risk_score_range_invariant (.success [sampleGdeltArticle]) .rateLimited []
      "key" "20240101" "now" (fun _ => ((0 : Rat), (0 : Rat)))
      (fun _ => ((0 : Rat), (0 : Rat))) (fun _ _ => ((0 : Rat), (0 : Rat)))
      sampleEvent ⟨some 99, none, none⟩).1 _ (by decide),
    by decide,
    ((risk_score_range_invariant (.success [sampleGdeltArticle]) .rateLimited []
      "key" "20240101" "now" (fun _ => ((0 : Rat), (0 : Rat)))
      (fun _ => ((0 : Rat), (0 : Rat))) (fun _ _ => ((0 : Rat), (0 : Rat)))
      sampleEvent ⟨some 99, none, none⟩).2.2.2.2 (by decide)).1,
    ((risk_score_range_invariant (.success [sampleGdeltArticle]) .rateLimited []
      "key" "20240101" "now" (fun _ => ((0 : Rat), (0 : Rat)))
      (fun _ => ((0 : Rat), (0 : Rat))) (fun _ _ => ((0 : Rat), (0 : Rat)))
      sampleEvent ⟨some 99, none, none⟩).2.2.2.2 (by decide)).2⟩

/-- A fresh fetch through the cache stores the fetched value at the call time
and reports that the network was hit. -/
theorem cachedCall_miss {α β : Type} [DecidableEq α] (f : α → β) (ttl now : Nat)
    (s : CacheState α β) (a : α)
    (h : s.entries.find? (validEntry ttl now a) = none) :
    cachedCall f ttl now s a
      = ⟨f a, ⟨⟨a, f a, now⟩ :: s.entries.filter (fun e => decide (e.args ≠ a))⟩, true⟩ := by
  unfold cachedCall
  rw [h]

/-- A call that reports a network hit was a cache miss. -/
theorem cachedCall_networkCall_true {α β : Type} [DecidableEq α] (f : α → β)
    (ttl now : Nat) (s : CacheState α β) (a : α)
    (h : (cachedCall f ttl now s a).networkCall = true) :
    s.entries.find? (validEntry ttl now a) = none := by
  rcases hf : s.entries.find? (validEntry ttl now a) with _ | e
  · rfl
  · unfold cachedCall at h
    rw [hf] at h
    cases h

/-- Claim C2: within 600 seconds of a fresh fetch, a second call with the
same arguments returns the same value without a network call and leaves the
store unchanged; at or after expiry the next call re-executes the fetch and
replaces the entry with one created at the new time; and the explicit
refresh action evicts every entry of both wrapped fetchers immediately,
regardless of entry age, so the next call fetches again. -/
theorem cache_ttl_refresh_spec {α β γ δ : Type} [DecidableEq α] (f : α → β)
    (t1 t2 : Nat) (s : CacheState α β) (s2 : CacheState γ δ) (a : α)
    (h1 : (cachedCall f 600 t1 s a).networkCall = true) :
    (t1 ≤ t2 → t2 < t1 + 600 →
      cachedCall f 600 t2 (cachedCall f 600 t1 s a).state a
        = ⟨(cachedCall f 600 t1 s a).value, (cachedCall f 600 t1 s a).state, false⟩)
  ∧ (t1 + 600 ≤ t2 →
      (cachedCall f 600 t2 (cachedCall f 600 t1 s a).state a).networkCall = true
    ∧ (cachedCall f 600 t2 (cachedCall f 600 t1 s a).state a).value = f a
    ∧ (cachedCall f 600 t2 (cachedCall f 600 t1 s a).state a).state.entries.head?
        = some ⟨a, f a, t2⟩)
  ∧ ((refreshAction s s2).1.entries = [] ∧ (refreshAction s s2).2.entries = []
    ∧ (cachedCall f 600 t2 (refreshAction s s2).1 a).networkCall = true) := by
  have hmiss := cachedCall_networkCall_true f 600 t1 s a h1
  have hstate := cachedCall_miss f 600 t1 s a hmiss
  refine ⟨?_, ?_, rfl, rfl, rfl⟩
  · intro hle hlt
    rw [hstate]
    dsimp only
    have hvalid : validEntry (β := β) 600 t2 a ⟨a, f a, t1⟩ = true := by
      simp [validEntry, hlt]
    unfold cachedCall
    rw [List.find?_cons_of_pos _ hvalid]
  · intro hexp
    rw [hstate]
    dsimp only
    have hinvalid : ¬ validEntry (β := β) 600 t2 a ⟨a, f a, t1⟩ = true := by
      simp [validEntry]
      omega
    have hrest : (s.entries.filter (fun e => decide (e.args ≠ a))).find?
        (validEntry 600 t2 a) = none := by
      rw [List.find?_eq_none]
      intro x hx
      have hne : x.args ≠ a := by
        have := (List.mem_filter.mp hx).2
        simpa using this
      simp [validEntry, hne]
    unfold cachedCall
    rw [List.find?_cons_of_neg _ hinvalid, hrest]
    exact ⟨rfl, rfl, rfl⟩

/-- Witness for C2: on a fresh store, the first call at time 0 hits the
network; the second call at time 100 returns the cached value silently. -/
theorem cache_ttl_refresh_spec_witness :
    (cachedCall Nat.succ 600 0 (⟨[]⟩ : CacheState Nat Nat) 5).networkCall = true
  ∧ 0 ≤ 100 ∧ 100 < 0 + 600
  ∧ cachedCall Nat.succ 600 100 (cachedCall Nat.succ 600 0 (⟨[]⟩ : CacheState Nat Nat) 5).state 5
      = ⟨(cachedCall Nat.succ 600 0 (⟨[]⟩ : CacheState Nat Nat) 5).value,
          (cachedCall Nat.succ 600 0 (⟨[]⟩ : CacheState Nat Nat) 5).state, false⟩ :=
  ⟨by decide, by decide, by decide,
    (cache_ttl_refresh_spec Nat.succ 0 100 (⟨[]⟩ : CacheState Nat Nat)
      (⟨[]⟩ : CacheState Nat Nat) 5 (by decide)).1 (by decide) (by decide)⟩

/-- The RSS entry loop emits at most one row per entry. -/
theorem rssEntryRows_length_le (src : String) (rndi : Nat → Rat × Rat) :
    ∀ (es : List RssEntry) (i : Nat), (rssEntryRows src rndi i es).length ≤ es.length := by
  intro es
  induction es with
  | nil => intro i; simp [rssEntryRows]
  | cons e rest ih =>
      intro i
      unfold rssEntryRows
      split_ifs
      · exact (ih i).trans (by simp)
      · simpa using ih (i + 1)

/-- Counterexample to C6 as stated: a transport failure in the secondary
(NewsAPI) fetcher is converted to an empty result with NO user-visible
warning — the warning list (second component) is empty, unlike the primary
fetcher's failure handling. -/
theorem newsapi_silent_failure_counterexample :
    (fetch_newsapi_events "testkey" (.failure "connection timeout") "2024-01-01 00:00"
        (fun _ => ((0 : Rat), (0 : Rat)))).1 = []
  ∧ (fetch_newsapi_events "testkey" (.failure "connection timeout") "2024-01-01 00:00"
        (fun _ => ((0 : Rat), (0 : Rat)))).2 = [] := by
  constructor <;> rfl

/-- Claim C6 (amended): no fetcher ever raises — every network, parsing and
rate-limit failure is converted to an empty result; the primary (GDELT)
fetcher also emits a user-visible warning on each failure, while the
secondary (NewsAPI) fetcher and the RSS per-feed handler fail silently; in
the RSS fetcher a feed's failure is isolated per feed, so with one failing
and one surviving feed the returned collection is exactly the surviving
feed's rows, and every feed contributes at most the per-feed cap of 15. -/
theorem fetcher_failure_isolation (nowC nowS k msg msg2 msg3 u u1 u2 : String)
    (status : Option Nat) (rnd1 rnd2 rndi : Nat → Rat × Rat)
    (rnd3 : Nat → Nat → Rat × Rat) (feed : RssFeed) :
    ((fetch_gdelt_events .rateLimited nowC rnd1).1 = [] ∧
      (fetch_gdelt_events .rateLimited nowC rnd1).2 ≠ [])
  ∧ ((fetch_gdelt_events (.httpError status msg) nowC rnd1).1 = [] ∧
      (fetch_gdelt_events (.httpError status msg) nowC rnd1).2 ≠ [])
  ∧ ((fetch_gdelt_events (.unreachable msg) nowC rnd1).1 = [] ∧
      (fetch_gdelt_events (.unreachable msg) nowC rnd1).2 ≠ [])
  ∧ fetch_newsapi_events k .rateLimited nowS rnd2 = ([], [])
  ∧ fetch_newsapi_events k (.failure msg2) nowS rnd2 = ([], [])
  ∧ rssOneFeedRows rndi u (.error msg3) = []
  ∧ (rssOneFeedRows rndi u (.ok feed)).length ≤ MAX_RSS_ENTRIES_PER_FEED
  ∧ fetch_rss_events [(u1, .error msg3), (u2, .ok feed)] rnd3
      = (rssOneFeedRows (rnd3 1) u2 (.ok feed), []) := by
  refine ⟨⟨rfl, by simp [fetch_gdelt_events]⟩,
    ⟨rfl, by simp [fetch_gdelt_events]⟩,
    ⟨rfl, by simp [fetch_gdelt_events]⟩, ?_, ?_, rfl, ?_, ?_⟩
  · unfold fetch_newsapi_events; split_ifs <;> rfl
  · unfold fetch_newsapi_events; split_ifs <;> rfl
  · unfold rssOneFeedRows
    calc (rssEntryRows (pyOr (feed.feedTitle.getD "") u) rndi 0
          (feed.entries.take MAX_RSS_ENTRIES_PER_FEED)).length
        ≤ (feed.entries.take MAX_RSS_ENTRIES_PER_FEED).length :=
          rssEntryRows_length_le _ _ _ 0
      _ ≤ MAX_RSS_ENTRIES_PER_FEED := by simp [List.length_take]
  · simp [fetch_rss_events, rssFeedsRows, rssOneFeedRows]

/-- The retention test written as the claim spells it: title present and
relevance at least 1. -/
theorem newsapiKeep_eq (a : NewsArticle) :
    newsapiKeep a = (decide (a.title ≠ "") &&
      decide (1 ≤ _supply_chain_relevance (a.title ++ " " ++ pyOr a.description a.title))) := by
  rw [Bool.eq_iff_iff]
  simp only [newsapiKeep, NEWSAPI_MIN_RELEVANCE, Bool.and_eq_true, bne_iff_ne,
    ne_eq, Bool.not_eq_true', decide_eq_false_iff_not, Nat.not_lt,
    decide_eq_true_eq]

/-- The NewsAPI article loop keeps exactly the articles passing the
retention test, in order. -/
theorem newsapiRows_eq_filter (nowS : String) (rnd : Nat → Rat × Rat) :
    ∀ (arts : List NewsArticle) (i : Nat),
      newsapiRows nowS rnd i arts
        = (arts.filter newsapiKeep).mapIdx (fun j a => newsapiRow nowS (rnd (i + j)) a) := by
  intro arts
  induction arts with
  | nil => intro i; simp [newsapiRows]
  | cons a rest ih =>
      intro i
      unfold newsapiRows
      by_cases hk : newsapiKeep a = true
      · rw [if_pos hk, List.filter_cons_of_pos hk, List.mapIdx_cons]
        rw [Nat.add_zero, ih (i + 1)]
        have hfun : (fun j (x : NewsArticle) => newsapiRow nowS (rnd (i + 1 + j)) x)
            = fun j (x : NewsArticle) => newsapiRow nowS (rnd (i + (j + 1))) x := by
          funext j x
          have hj : i + 1 + j = i + (j + 1) := by omega
          rw [hj]
        rw [hfun]
        simp
      · rw [if_neg hk, List.filter_cons_of_neg hk]
        exact ih i

/-- Counterexample to C8 as stated: the relevance vocabulary has 26 terms,
not 24. -/
theorem relevance_vocab_counterexample :
    NEWSAPI_RELEVANCE_KEYWORDS.length = 26
  ∧ ¬ NEWSAPI_RELEVANCE_KEYWORDS.length = 24 := by
  constructor <;> decide

/-- Claim C8 (amended): the relevance score counts the distinct keywords of
the fixed 26-term supply-chain vocabulary occurring case-insensitively as
substrings, and the secondary fetcher retains exactly the articles that have
a title and whose title-plus-description relevance is at least the threshold
of 1. -/
theorem relevance_gate_spec (text k nowS : String) (rnd2 : Nat → Rat × Rat)
    (arts : List NewsArticle) (h : pyStrip k ≠ "") :
    NEWSAPI_RELEVANCE_KEYWORDS.length = 26
  ∧ NEWSAPI_MIN_RELEVANCE = 1
  ∧ _supply_chain_relevance text
      = NEWSAPI_RELEVANCE_KEYWORDS.countP (fun kw => kwIn (pyLower kw) (pyLower text))
  ∧ (fetch_newsapi_events k (.success arts) nowS rnd2).1
      = (arts.filter (fun a => decide (a.title ≠ "") &&
            decide (1 ≤ _supply_chain_relevance
              (a.title ++ " " ++ pyOr a.description a.title)))).mapIdx
          (fun j a => newsapiRow nowS (rnd2 j) a) := by
  refine ⟨rfl, rfl, ?_, ?_⟩
  · unfold _supply_chain_relevance
    split_ifs with ht
    · subst ht; decide
    · rfl
  · unfold fetch_newsapi_events
    rw [if_neg h]
    dsimp only
    rw [newsapiRows_eq_filter nowS rnd2 arts 0,
      List.filter_congr (fun a _ => newsapiKeep_eq a)]
    congr 1
    funext j x
    rw [Nat.zero_add]

/-- Witness for C8: a concrete article with a title and relevance 3 is
retained by the fetcher. -/
theorem relevance_gate_spec_witness :
    pyStrip "key" ≠ ""
  ∧ (fetch_newsapi_events "key" (.success [sampleNewsArticle]) "2024-01-01 00:00"
        (fun _ => ((0 : Rat), (0 : Rat)))).1
      = ([sampleNewsArticle].filter (fun a => decide (a.title ≠ "") &&
            decide (1 ≤ _supply_chain_relevance
              (a.title ++ " " ++ pyOr a.description a.title)))).mapIdx
          (fun j a => newsapiRow "2024-01-01 00:00"
            ((fun _ => ((0 : Rat), (0 : Rat))) j) a) :=
  ⟨by decide,
    (relevance_gate_spec "x" "key" "2024-01-01 00:00" (fun _ => ((0 : Rat), (0 : Rat)))
      [sampleNewsArticle] (by decide)).2.2.2⟩

/-- Timestamps of the GDELT article loop are the parsed seendates. -/
theorem gdeltRows_timestamps (nowC : String) (rnd : Nat → Rat × Rat) :
    ∀ (arts : List GdeltArticle) (i : Nat),
      (gdeltRows nowC rnd i arts).map (fun ev => ev.timestamp)
        = arts.map (fun a => gdeltTimestamp (a.seendate.getD nowC)) := by
  intro arts
  induction arts with
  | nil => intro i; rfl
  | cons a rest ih =>
      intro i
      simp only [gdeltRows, List.map_cons]
      exact congrArg _ (ih (i + 1))

/-- Counterexample to C9 as stated: a GDELT event built from the compact
seendate `20240315123456` carries the timestamp `20240315 12:34`, whose date
part has no hyphens, so it is not in the canonical `YYYY-MM-DD HH:MM`
format. -/
theorem canonical_timestamp_counterexample :
    ((fetch_gdelt_events (.success [sampleGdeltArticle]) "20240101"
        (fun _ => ((0 : Rat), (0 : Rat)))).1.map (fun ev => ev.timestamp))
      = ["20240315 12:34"]
  ∧ isCanonicalTimestamp "20240315 12:34" = false := by
  constructor <;> decide

/-- Claim C9 (amended): the primary fetcher splits the compact seendate into
its first 8 characters as the date and the next 4 as hour:minute — so a
well-formed 14-digit seendate yields a `YYYYMMDD HH:MM` timestamp (compact
date, no hyphens), not `YYYY-MM-DD HH:MM` — and defaults the time part to
00:00 when the string is shorter than 12 characters; every event of a
successful GDELT fetch carries such a parsed timestamp. -/
theorem gdelt_timestamp_format_spec
    (c1 c2 c3 c4 c5 c6 c7 c8 c9 c10 c11 c12 c13 c14 : Char)
    (s nowC : String) (arts : List GdeltArticle) (rnd : Nat → Rat × Rat)
    (hd : ([c1, c2, c3, c4, c5, c6, c7, c8, c9, c10, c11, c12, c13, c14].all
      Char.isDigit) = true) :
    isCompactTimestamp (gdeltTimestamp
        (String.mk [c1, c2, c3, c4, c5, c6, c7, c8, c9, c10, c11, c12, c13, c14])) = true
  ∧ (s.data.length < 12 → gdeltTimestamp s = pyTake s 8 ++ " 00:00")
  ∧ (fetch_gdelt_events (.success arts) nowC rnd).1.map (fun ev => ev.timestamp)
      = arts.map (fun a => gdeltTimestamp (a.seendate.getD nowC)) := by
  refine ⟨?_, ?_, ?_⟩
  · simp only [List.all_cons, List.all_nil, Bool.and_eq_true] at hd
    simp [gdeltTimestamp, pySlice, isCompactTimestamp, String.append, hd]
  · intro hlen
    unfold gdeltTimestamp
    rw [if_neg (by omega)]
    have h1 : pySlice s 0 8 = pyTake s 8 := rfl
    rw [h1, String.append_assoc]
    rfl
  · unfold fetch_gdelt_events
    dsimp only
    split_ifs with he
    · rw [List.isEmpty_iff.mp he]; rfl
    · exact gdeltRows_timestamps nowC rnd arts 0

/-- Witness for C9: the digits of `20240315123456` produce the compact
timestamp shape. -/
theorem gdelt_timestamp_format_spec_witness :
    (['2', '0', '2', '4', '0', '3', '1', '5', '1', '2', '3', '4', '5', '6'].all
      Char.isDigit) = true
  ∧ isCompactTimestamp (gdeltTimestamp
      (String.mk ['2', '0', '2', '4', '0', '3', '1', '5', '1', '2', '3', '4', '5', '6'])) = true :=
  ⟨by decide,
    (gdelt_timestamp_format_spec '2' '0' '2' '4' '0' '3' '1' '5' '1' '2' '3' '4' '5' '6'
      "" "" [] (fun _ => ((0 : Rat), (0 : Rat))) (by decide)).1⟩
